import Mathlib

/-!
Shallow embedding of `jt_ssh_client` (files `src/jt_ssh_client/connector.py`
and `src/jt_ssh_client/enums.py`) for checking the natural-language
specification against the code.

Conventions of the embedding:
* Python exceptions are modelled by the enumeration `PyError`; a fallible
  Python code path becomes a Lean function returning `Except PyError _`.
  The spec's error taxonomy maps onto the exceptions actually raised by the
  code as follows: `CredentialFileMissing` is the `FileExistsError` raised in
  `Connector.__init__`, `InsufficientCredentials` is the generic `Exception`
  raised in `_create_ssh_client`, `HostKeyRejected` is paramiko's
  `BadHostKeyException`, `AuthenticationFailed` is paramiko's
  `AuthenticationException`, `UnsupportedTransport` is the
  "not currently supported" `Exception` of `_download_file`/`_upload_file`.
* The external collaborators (filesystem, paramiko key loading, the
  network connect, the remote side of scp/sftp get and put) are oracles
  supplied as explicit parameters, so theorems quantify over their behavior.
* Python attribute truthiness is modelled with `Option` (`none` = `None`,
  which is falsy); an attribute that may not have been assigned at all
  (so that reading it raises `AttributeError`) is modelled with a further
  `Option` layer where noted.
-/

deriving instance DecidableEq for Except

namespace JtSsh

/-- The exceptions the embedded code can raise (see module docstring for the
mapping onto the Python exceptions and the spec's taxonomy). -/
inductive PyError where
  | fileExistsError
  | keyDecryptError
  | invalidCredentials
  | badHostKeyError
  | authenticationError
  | attributeError
  | unsupportedTransport
  | pathNotFound
  | zeroDivisionError
  | closeError
deriving DecidableEq, Repr

/-- `enums.py`: the `Client` enumeration (the spec's Transport Tag). -/
inductive Client where
  | SSHClient
  | SCPClient
  | SFTPClient
deriving DecidableEq, Repr

/-- Host-key policies that can be passed to the constructor
(`AutoAddPolicy()` is the default argument). -/
inductive Policy where
  | autoAdd
  | reject
  | prompt
deriving DecidableEq, Repr

/-- Loaded private-key material (paramiko `RSAKey`); `keyData` stands for the
decrypted bytes. An `RSAKey` object is always truthy in Python. -/
structure RSAKeyM where
  keyData : String
deriving DecidableEq, Repr

/-- The command-execution handle (paramiko `SSHClient` after `connect`).
`transport` models what `get_transport()` returns: `none` for `None`. -/
structure SSHHandle where
  transport : Option Unit
deriving DecidableEq, Repr

/-- The accelerated-copy handle (`scp.SCPClient`). -/
structure SCPHandle where
  boundTransport : Unit
deriving DecidableEq, Repr

/-- The attribute-transfer handle (paramiko `SFTPClient`). -/
structure SFTPHandle where
  subchannel : Unit
deriving DecidableEq, Repr

/-- Python truthiness of an optional string: `None` and `""` are falsy. -/
def pyTruthy : Option String → Bool
  | none => false
  | some s => !(s == "")

/-- Outcome of `SSHClient.connect` as seen by `_create_ssh_client`:
success (with the transport that `get_transport()` will later return),
`BadHostKeyException`, or `AuthenticationException`. -/
inductive ConnectResult where
  | ok (transport : Option Unit)
  | badHostKey
  | authFail
deriving DecidableEq, Repr

/-- Oracle for the collaborators used while constructing a `Connector`:
`fs` is `Path.exists`, `loadKey` is `RSAKey.from_private_key_file`
(which may raise on a bad passphrase or corrupt key), `connect` is the
outcome of `SSHClient.connect` for this host. -/
structure Env where
  fs : String → Bool
  loadKey : String → Option String → Except PyError RSAKeyM
  connect : ConnectResult

/-- The constructor arguments of `Connector.__init__`. The Python parameter
`ssh_credentials` is a tuple that defaults to the (falsy) empty tuple; a
supplied triple is modelled as `some (private key path, public key path,
optional passphrase)`. -/
structure ConnectorArgs where
  host : String
  port : Nat := 22
  username : Option String := none
  password : Option String := none
  ssh_credentials : Option (String × String × Option String) := none
  policy : Policy := .autoAdd

/-- The credential-file fields set by the `if ssh_credentials:` block of
`Connector.__init__` (all initialized to `None` just before it). -/
structure CredState where
  ssh_private_key_file : Option String
  ssh_public_key_file : Option String
  ssh_key_passphrase : Option String
deriving DecidableEq, Repr

/-- A fully constructed `Connector` (the state after `__init__` returns). -/
structure Connector where
  username : Option String
  password : Option String
  host : String
  port : Nat
  ssh_private_key : Option RSAKeyM
  ssh_private_key_file : Option String
  ssh_public_key_file : Option String
  ssh_key_passphrase : Option String
  policy : Policy
  ssh_client : SSHHandle
  scp_client : SCPHandle
  sftp_client : SFTPHandle
deriving DecidableEq, Repr

/-- Lines 75-90 of `connector.py`: if a credential tuple was supplied, both
the private- and public-key files must exist (`all(credentials)`), otherwise
`FileExistsError` is raised; on success the three fields are assigned. -/
def resolveCredentialFiles (fs : String → Bool)
    (ssh_credentials : Option (String × String × Option String)) :
    Except PyError CredState :=
  match ssh_credentials with
  | none => .ok ⟨none, none, none⟩
  | some (priv, pub, pass) =>
      if fs priv && fs pub then
        .ok ⟨some priv, some pub, pass⟩
      else
        .error .fileExistsError

/-- `Connector._retrieve_ssh_key`: if a private-key file path was recorded,
eagerly load (and decrypt) the key with `RSAKey.from_private_key_file`;
otherwise leave `self.ssh_private_key` as `None`. -/
def retrieveSshKey (loadKey : String → Option String → Except PyError RSAKeyM)
    (cs : CredState) : Except PyError (Option RSAKeyM) :=
  match cs.ssh_private_key_file with
  | some f =>
      match loadKey f cs.ssh_key_passphrase with
      | .ok k => .ok (some k)
      | .error e => .error e
  | none => .ok none

/-- `Connector._create_ssh_client`: connect with the loaded private key if
there is one, else with username and password when both are truthy, else
raise the "Invalid credentials supplied" exception; `BadHostKeyException`
and `AuthenticationException` from `connect` are re-raised. -/
def createSshClient (connect : ConnectResult) (ssh_private_key : Option RSAKeyM)
    (username password : Option String) : Except PyError SSHHandle :=
  match ssh_private_key with
  | some _ =>
      match connect with
      | .ok t => .ok ⟨t⟩
      | .badHostKey => .error .badHostKeyError
      | .authFail => .error .authenticationError
  | none =>
      if pyTruthy username && pyTruthy password then
        match connect with
        | .ok t => .ok ⟨t⟩
        | .badHostKey => .error .badHostKeyError
        | .authFail => .error .authenticationError
      else
        .error .invalidCredentials

/-- `Connector._create_scp_client`: read `self.ssh_client.get_transport()`;
when it is not `None`, assign `self.scp_client`; then `return
self.scp_client`. `scpAttr` is the state of the `scp_client` attribute on
entry: `none` means the attribute has never been assigned, so reading it
raises `AttributeError` (which is exactly the situation during `__init__`,
where the attribute is first assigned from this method's return value). -/
def createScpClient (transport : Option Unit) (scpAttr : Option SCPHandle) :
    Except PyError SCPHandle :=
  match transport with
  | some t => .ok ⟨t⟩
  | none =>
      match scpAttr with
      | some c => .ok c
      | none => .error .attributeError

/-- `Connector._create_sftp_client`: `self.ssh_client.open_sftp()`. -/
def createSftpClient : SFTPHandle := ⟨()⟩

/-- `Connector.__init__`: field initialization, the credential-file block,
`_retrieve_ssh_key`, `_create_ssh_client`, `_create_scp_client` (with the
`scp_client` attribute still unassigned), `_create_sftp_client`. Any raised
exception aborts construction, so no `Connector` value is produced. -/
def connectorInit (env : Env) (args : ConnectorArgs) :
    Except PyError Connector :=
  match resolveCredentialFiles env.fs args.ssh_credentials with
  | .error e => .error e
  | .ok cs =>
      match retrieveSshKey env.loadKey cs with
      | .error e => .error e
      | .ok key =>
          match createSshClient env.connect key args.username args.password with
          | .error e => .error e
          | .ok ssh =>
              match createScpClient ssh.transport none with
              | .error e => .error e
              | .ok scp =>
                  .ok { username := args.username
                        password := args.password
                        host := args.host.trim
                        port := args.port
                        ssh_private_key := key
                        ssh_private_key_file := cs.ssh_private_key_file
                        ssh_public_key_file := cs.ssh_public_key_file
                        ssh_key_passphrase := cs.ssh_key_passphrase
                        policy := args.policy
                        ssh_client := ssh
                        scp_client := scp
                        sftp_client := createSftpClient }

/-- The value returned by `Connector._get_client`: one of the three live
handles, still carrying its Python runtime type (the transfer methods
dispatch on it with `isinstance`). -/
inductive HandleV where
  | ssh : SSHHandle → HandleV
  | scp : SCPHandle → HandleV
  | sftp : SFTPHandle → HandleV
deriving DecidableEq, Repr

/-- `Connector._get_client`: `if client == Client.SSHClient: ... elif client
== Client.SCPClient: ... else: ...` over the enumeration. -/
def get_client (conn : Connector) (client : Client) : HandleV :=
  if client = Client.SSHClient then .ssh conn.ssh_client
  else if client = Client.SCPClient then .scp conn.scp_client
  else .sftp conn.sftp_client

/-- Oracle for the remote side of the four collaborator transfer methods:
each field gives the outcome (`.ok ()` or a raised pass-through I/O error
such as path-not-found) of `SCPClient.get`, `SFTPClient.get`,
`SCPClient.put`, `SFTPClient.put` at the given arguments. Note that
`SCPClient.get` receives the recursive flag and `SFTPClient.get` does not:
that mirrors the signatures used in `connector.py`. -/
structure RemoteEnv where
  scpGetRes : String → String → Bool → Except PyError Unit
  sftpGetRes : String → String → Except PyError Unit
  scpPutRes : String → String → Except PyError Unit
  sftpPutRes : String → String → Except PyError Unit

/-- Observation of which collaborator call a download performed, with the
arguments it was given. `scpGet` records that the recursive flag was
forwarded; `sftpGet` has no recursive argument because `_download_file`
does not forward one to `SFTPClient.get`. -/
inductive TransferOp where
  | scpGet (source : String) (localPath : String) (recursive : Bool)
  | sftpGet (source : String) (destination : String)
deriving DecidableEq, Repr

/-- `Connector._download_file`: fetch the handle with `_get_client`, then
`isinstance` dispatch — `SCPClient.get(source, local_path=str(destination),
recursive=recursive)` for the scp handle, `SFTPClient.get(source,
str(destination))` for the sftp handle, and the "not currently supported"
exception otherwise. Returns the performed collaborator call. -/
def download_file (env : RemoteEnv) (conn : Connector) (client : Client)
    (source : String) (destination : String) (recursive : Bool) :
    Except PyError TransferOp :=
  match get_client conn client with
  | .scp _ =>
      match env.scpGetRes source destination recursive with
      | .ok _ => .ok (.scpGet source destination recursive)
      | .error e => .error e
  | .sftp _ =>
      match env.sftpGetRes source destination with
      | .ok _ => .ok (.sftpGet source destination)
      | .error e => .error e
  | .ssh _ => .error .unsupportedTransport

/-- `Connector._download_files`: the list comprehension
`[self._download_file(client, source, destination, recursive) for source in
sources]`. The comprehension evaluates strictly left to right and a raised
exception propagates immediately, so the result records, in order, every
source that was actually attempted together with its outcome; sources after
a raising one are never attempted. -/
def download_files (env : RemoteEnv) (conn : Connector) (client : Client)
    (sources : List String) (destination : String) (recursive : Bool) :
    List (String × Except PyError TransferOp) :=
  match sources with
  | [] => []
  | s :: rest =>
      match download_file env conn client s destination recursive with
      | .ok op =>
          (s, .ok op) :: download_files env conn client rest destination recursive
      | .error e => [(s, .error e)]

/-- Observation of which collaborator call an upload performed. -/
inductive UploadOp where
  | scpPut (source : String) (remotePath : String)
  | sftpPut (source : String) (destination : String)
deriving DecidableEq, Repr

/-- `Connector._upload_file`: `_get_client`, then `isinstance` dispatch —
`SCPClient.put(source, remote_path=destination)` for the scp handle,
`SFTPClient.put(str(source), destination)` for the sftp handle, and the
"not currently supported" exception otherwise. -/
def upload_file (env : RemoteEnv) (conn : Connector) (client : Client)
    (source : String) (destination : String) : Except PyError UploadOp :=
  match get_client conn client with
  | .scp _ =>
      match env.scpPutRes source destination with
      | .ok _ => .ok (.scpPut source destination)
      | .error e => .error e
  | .sftp _ =>
      match env.sftpPutRes source destination with
      | .ok _ => .ok (.sftpPut source destination)
      | .error e => .error e
  | .ssh _ => .error .unsupportedTransport

/-- A node of the local filesystem as `_upload_files` observes it through
`pathlib.Path`: `is_file()`, `is_dir()`, and `iterdir()`. Each node carries
the full path string of the `Path` object that denotes it. -/
inductive FSEntry where
  | file (path : String)
  | dir (path : String) (entries : List FSEntry)

mutual

/-- Size of a filesystem node, used as the termination measure of the
`_upload_files` recursion. -/
def entrySize : FSEntry → Nat
  | .file _ => 0
  | .dir _ entries => 1 + entryListSize entries

/-- Size of a list of filesystem nodes. -/
def entryListSize : List FSEntry → Nat
  | [] => 0
  | e :: rest => 1 + entrySize e + entryListSize rest

end

mutual

/-- `Connector._upload_files`: `for source in sources:` — if
`source.is_file()` upload it; if `source.is_dir() and recursive`, then
`for item in source.iterdir(): self._upload_files(client, [item],
destination, **kwargs)`. The inner recursive call passes no `recursive`
argument, so it runs with the default `recursive=False`. The result is the
ordered list of collaborator put calls performed, paired with the first
raised exception if one aborted the loop. -/
def upload_files (env : RemoteEnv) (conn : Connector) (client : Client)
    (sources : List FSEntry) (destination : String) (recursive : Bool) :
    List UploadOp × Option PyError :=
  match sources with
  | [] => ([], none)
  | s :: rest =>
      match uploadLoopBody env conn client s destination recursive with
      | (ops, some e) => (ops, some e)
      | (ops, none) =>
          match upload_files env conn client rest destination recursive with
          | (ops2, err) => (ops ++ ops2, err)
termination_by 3 * entryListSize sources + 1
decreasing_by
  all_goals simp [entrySize, entryListSize]
  all_goals omega

/-- The body of the `for source in sources:` loop of `_upload_files` for a
single `source`: the `is_file` branch uploads the file; the
`is_dir() and recursive` branch iterates over `iterdir()`. -/
def uploadLoopBody (env : RemoteEnv) (conn : Connector) (client : Client)
    (source : FSEntry) (destination : String) (recursive : Bool) :
    List UploadOp × Option PyError :=
  match source with
  | .file p =>
      match upload_file env conn client p destination with
      | .ok op => ([op], none)
      | .error e => ([], some e)
  | .dir _ entries =>
      if recursive then uploadIterdir env conn client entries destination
      else ([], none)
termination_by 3 * entrySize source
decreasing_by
  all_goals simp [entrySize, entryListSize]
  all_goals omega

/-- The `for item in source.iterdir():` loop of `_upload_files`: each item
is handed to `self._upload_files(client, [item], destination, **kwargs)`,
i.e. with the `recursive` parameter left at its default `False`. -/
def uploadIterdir (env : RemoteEnv) (conn : Connector) (client : Client)
    (entries : List FSEntry) (destination : String) :
    List UploadOp × Option PyError :=
  match entries with
  | [] => ([], none)
  | item :: rest =>
      match upload_files env conn client [item] destination false with
      | (ops, some e) => (ops, some e)
      | (ops, none) =>
          match uploadIterdir env conn client rest destination with
          | (ops2, err) => (ops ++ ops2, err)
termination_by 3 * entryListSize entries + 2
decreasing_by
  all_goals simp [entrySize, entryListSize]
  all_goals omega

end

/-- Result of `SSHClient.exec_command` for one command, as observed through
the streams `_execute_commands` uses: the exit status awaited with
`recv_exit_status()` and the lines returned by `stdout.readlines()`. -/
structure ExecResult where
  exitStatus : Int
  stdoutLines : List String
deriving DecidableEq, Repr

/-- Trace events of `_execute_commands`: issuing a command with
`exec_command`, blocking on `recv_exit_status`, and `print` of one output
line together with the command it came from (the printed text is
`"Input: " ++ command ++ " \n" ++ "Result: " ++ line`). -/
inductive ExecEvent where
  | execCmd (command : String)
  | waitExit (command : String) (status : Int)
  | printLine (command : String) (line : String)
deriving DecidableEq, Repr

/-- `Connector._execute_commands`: `for command in commands:` —
`exec_command(command)`, then `stdout.channel.recv_exit_status()`, then
`stdout.readlines()`, then print each line tagged with the command.
`remoteExec` is the oracle for what the remote host does with a command. -/
def execute_commands (remoteExec : String → ExecResult)
    (commands : List String) : List ExecEvent :=
  match commands with
  | [] => []
  | c :: rest =>
      let r := remoteExec c
      .execCmd c :: .waitExit c r.exitStatus
        :: ((r.stdoutLines.map fun l => .printLine c l)
            ++ execute_commands remoteExec rest)

/-- How a progress line written by the scp callback is terminated:
carriage return (overwrite in place) or newline (finalize). -/
inductive LineEnd where
  | cr
  | lf
deriving DecidableEq, Repr

/-- A line written to stdout by `_scp_client_progress_text_callback`:
the `"host:port | file"` header, the computed percentage (exact rational
in the embedding; Python computes it in floating point and renders it with
two decimals), and the terminator. -/
structure ProgressOutput where
  header : String
  percentage : ℚ
  ending : LineEnd
deriving DecidableEq, Repr

/-- `_scp_client_progress_text_callback`: builds the
`f"{peername[0]}:{peername[1]} | {file}"` header, computes
`100 * (sent / float(size))` — which raises `ZeroDivisionError` when
`size == 0` — then writes the line ending in `"\r"` if `sent < size` and in
`"\n"` otherwise. -/
def scp_client_progress_text_callback (file : String) (size sent : Nat)
    (peerHost : String) (peerPort : Nat) : Except PyError ProgressOutput :=
  let header := peerHost ++ ":" ++ toString peerPort ++ " | " ++ file
  if size = 0 then .error .zeroDivisionError
  else
    let percentage : ℚ := 100 * ((sent : ℚ) / (size : ℚ))
    if sent < size then .ok ⟨header, percentage, .cr⟩
    else .ok ⟨header, percentage, .lf⟩

/-- A closable handle as `disconnect` sees it: `closed` is its state and
`failsOnClose` says whether its collaborator `close()` raises when called
(modelling a pass-through I/O failure such as connection-reset). -/
structure LiveHandle where
  closed : Bool
  failsOnClose : Bool
deriving DecidableEq, Repr, Fintype

/-- `close()` on a live handle: raises if the collaborator fails, otherwise
marks the handle closed (closing an already-closed paramiko/scp handle is a
no-op, so `closed` just stays `true`). -/
def closeHandle (h : LiveHandle) : Except PyError LiveHandle :=
  if h.failsOnClose then .error .closeError
  else .ok ⟨true, h.failsOnClose⟩

/-- The three client attributes of a `Connector` as `disconnect` observes
them. `ssh_client` is a single `Option`: `none` models the attribute being
`None` (falsy). `scp_client` and `sftp_client` carry a second `Option`
layer because `disconnect` guards them with `hasattr`: the outer `none`
models the attribute not existing at all, `some none` models it set to
`None`, and `some (some h)` a live handle. -/
structure SessionHandles where
  ssh_client : Option LiveHandle
  scp_client : Option (Option LiveHandle)
  sftp_client : Option (Option LiveHandle)
deriving DecidableEq, Repr, Fintype

/-- `Connector.disconnect`: `if self.ssh_client: self.ssh_client.close()`,
then `if hasattr(self, "scp_client") and self.scp_client:
self.scp_client.close()`, likewise for `sftp_client`. Each `close()` call
that raises propagates the exception immediately, abandoning the remaining
statements; the returned pair is the final attribute state and the
propagated exception, if any. -/
def disconnect (s : SessionHandles) : SessionHandles × Option PyError :=
  let step1 : SessionHandles × Option PyError :=
    match s.ssh_client with
    | some h =>
        match closeHandle h with
        | .ok h2 => ({ s with ssh_client := some h2 }, none)
        | .error e => (s, some e)
    | none => (s, none)
  match step1 with
  | (s1, some e) => (s1, some e)
  | (s1, none) =>
      let step2 : SessionHandles × Option PyError :=
        match s1.scp_client with
        | some (some h) =>
            match closeHandle h with
            | .ok h2 => ({ s1 with scp_client := some (some h2) }, none)
            | .error e => (s1, some e)
        | _ => (s1, none)
      match step2 with
      | (s2, some e) => (s2, some e)
      | (s2, none) =>
          match s2.sftp_client with
          | some (some h) =>
              match closeHandle h with
              | .ok h2 => ({ s2 with sftp_client := some (some h2) }, none)
              | .error e => (s2, some e)
          | _ => (s2, none)

/-- Whether an embedded Python call returned normally (`true`) or raised
(`false`). -/
def exceptOk {α : Type} : Except PyError α → Bool
  | .ok _ => true
  | .error _ => false

/-- A connector as produced by a fully successful `__init__` with password
credentials, used to evaluate the transfer engine on concrete inputs. -/
def testConn : Connector where
  username := some "bob"
  password := some "x"
  host := "10.0.0.5"
  port := 22
  ssh_private_key := none
  ssh_private_key_file := none
  ssh_public_key_file := none
  ssh_key_passphrase := none
  policy := .autoAdd
  ssh_client := ⟨some ()⟩
  scp_client := ⟨()⟩
  sftp_client := ⟨()⟩

/-- Remote oracle in which every collaborator transfer call succeeds. -/
def remoteAllOk : RemoteEnv where
  scpGetRes := fun _ _ _ => .ok ()
  sftpGetRes := fun _ _ => .ok ()
  scpPutRes := fun _ _ => .ok ()
  sftpPutRes := fun _ _ => .ok ()

/-- Remote oracle for the batch-download scenario: any get of the path
"/missing" raises path-not-found, every other call succeeds. -/
def remoteMissingPath : RemoteEnv where
  scpGetRes := fun s _ _ => if s = "/missing" then .error .pathNotFound else .ok ()
  sftpGetRes := fun s _ => if s = "/missing" then .error .pathNotFound else .ok ()
  scpPutRes := fun _ _ => .ok ()
  sftpPutRes := fun _ _ => .ok ()

/-- The local directory of the spec's upload scenario: `dirA/` containing
`f1.txt` and `sub/f2.txt`. -/
def dirA : FSEntry :=
  .dir "dirA" [.file "dirA/f1.txt", .dir "dirA/sub" [.file "dirA/sub/f2.txt"]]

/-- Construction environment in which the connection is established but
`get_transport()` returns `None`. -/
def envNoTransport : Env where
  fs := fun _ => false
  loadKey := fun _ _ => .error .keyDecryptError
  connect := .ok none

/-- Construction environment in which the remote host refuses the supplied
credentials (`AuthenticationException`). -/
def envAuthReject : Env where
  fs := fun _ => false
  loadKey := fun _ _ => .error .keyDecryptError
  connect := .authFail

/-- Construction environment in which both key files of the pair
`id_rsa`/`id_rsa.pub` exist and the private key decrypts fine. -/
def envBothExist : Env where
  fs := fun p => p == "id_rsa" || p == "id_rsa.pub"
  loadKey := fun f _ => if f = "id_rsa" then .ok ⟨"KEYDATA"⟩ else .error .keyDecryptError
  connect := .ok (some ())

/-- Construction environment in which the public-key file `id_rsa.pub`
does not exist on disk. -/
def envPubMissing : Env where
  fs := fun p => p == "id_rsa"
  loadKey := fun f _ => if f = "id_rsa" then .ok ⟨"KEYDATA"⟩ else .error .keyDecryptError
  connect := .ok (some ())

/-- Constructor arguments with password credentials only (the spec's
scenario `host="10.0.0.5"`, `port=22`, `user="bob"`, `pass="x"`). -/
def argsPassword : ConnectorArgs where
  host := "10.0.0.5"
  port := 22
  username := some "bob"
  password := some "x"

/-- Constructor arguments supplying a key-path triple and no password. -/
def argsKey : ConnectorArgs where
  host := "10.0.0.5"
  port := 22
  ssh_credentials := some ("id_rsa", "id_rsa.pub", none)

/-- Constructor arguments supplying neither a key triple nor a complete
username/password pair. -/
def argsNoCreds : ConnectorArgs where
  host := "10.0.0.5"
  port := 22
  username := some "bob"
  password := none

/-- C4: for every supplied key-path triple, if either declared file is
missing on disk then `Connector` construction fails with the
`CredentialFileMissing` error (`FileExistsError`); if both files exist and
the key material loads, the credential-resolution phase succeeds, recording
both paths, and `_retrieve_ssh_key` eagerly loads the private key. -/
theorem credential_files_checked (env : Env) (args : ConnectorArgs)
    (priv pub : String) (pass : Option String)
    (hsup : args.ssh_credentials = some (priv, pub, pass)) :
    (¬(env.fs priv = true ∧ env.fs pub = true) →
        connectorInit env args = .error .fileExistsError)
    ∧ (∀ k : RSAKeyM, env.fs priv = true → env.fs pub = true →
        env.loadKey priv pass = .ok k →
        resolveCredentialFiles env.fs args.ssh_credentials
            = .ok ⟨some priv, some pub, pass⟩
        ∧ retrieveSshKey env.loadKey ⟨some priv, some pub, pass⟩
            = .ok (some k)) := by
  constructor
  · intro h
    have hb : (env.fs priv && env.fs pub) = false := by
      cases hp : env.fs priv <;> cases hq : env.fs pub <;> simp_all
    simp [connectorInit, resolveCredentialFiles, hsup, hb, Except.bind]
  · intro k hp hq hk
    exact ⟨by simp [resolveCredentialFiles, hsup, hp, hq],
           by simp [retrieveSshKey, hk]⟩

/-- Witness for C4 at concrete inputs: with `id_rsa.pub` missing the
construction raises `FileExistsError`; with both files present the
resolver records the paths and the key is loaded eagerly. -/
theorem credential_files_checked_witness :
    connectorInit envPubMissing argsKey = .error .fileExistsError
    ∧ retrieveSshKey envBothExist.loadKey ⟨some "id_rsa", some "id_rsa.pub", none⟩
        = .ok (some ⟨"KEYDATA"⟩) :=
  ⟨(credential_files_checked envPubMissing argsKey "id_rsa" "id_rsa.pub" none
      rfl).1 (by decide),
   ((credential_files_checked envBothExist argsKey "id_rsa" "id_rsa.pub" none
      rfl).2 ⟨"KEYDATA"⟩ (by decide) (by decide) (by decide)).2⟩

/-- C5: with no key triple supplied and no complete username/password pair,
construction fails with the `InsufficientCredentials` error, and the failure
arises in `_create_ssh_client` (connection establishment), not in the
earlier credential-input phase: `resolveCredentialFiles` and
`_retrieve_ssh_key` both return normally. -/
theorem insufficient_credentials_at_open (env : Env) (args : ConnectorArgs)
    (hnokey : args.ssh_credentials = none)
    (hpair : pyTruthy args.username = false ∨ pyTruthy args.password = false) :
    connectorInit env args = .error .invalidCredentials
    ∧ resolveCredentialFiles env.fs args.ssh_credentials = .ok ⟨none, none, none⟩
    ∧ retrieveSshKey env.loadKey ⟨none, none, none⟩ = .ok none
    ∧ createSshClient env.connect none args.username args.password
        = .error .invalidCredentials := by
  have hb : (pyTruthy args.username && pyTruthy args.password) = false := by
    rcases hpair with h | h <;> simp [h]
  refine ⟨?_, by simp [resolveCredentialFiles, hnokey], rfl,
          by simp [createSshClient, hb]⟩
  simp [connectorInit, resolveCredentialFiles, hnokey, retrieveSshKey,
        createSshClient, hb, Except.bind]

/-- Witness for C5: username "bob" with no password and no key triple. -/
theorem insufficient_credentials_at_open_witness :
    connectorInit envBothExist argsNoCreds = .error .invalidCredentials
    ∧ resolveCredentialFiles envBothExist.fs argsNoCreds.ssh_credentials
        = .ok ⟨none, none, none⟩
    ∧ retrieveSshKey envBothExist.loadKey ⟨none, none, none⟩ = .ok none
    ∧ createSshClient envBothExist.connect none argsNoCreds.username
        argsNoCreds.password = .error .invalidCredentials :=
  insufficient_credentials_at_open envBothExist argsNoCreds rfl
    (Or.inr (by decide))

/-- C6: when the remote host refuses the credentials during `connect`, the
construction fails with the `AuthenticationFailed` error — a kind distinct
from `HostKeyRejected` — and no `Connector` (hence none of the three
transport handles) is ever produced. -/
theorem auth_rejection_no_handles (env : Env) (args : ConnectorArgs)
    (hreject : env.connect = .authFail)
    (hnokey : args.ssh_credentials = none)
    (huser : pyTruthy args.username = true)
    (hpass : pyTruthy args.password = true) :
    connectorInit env args = .error .authenticationError
    ∧ PyError.authenticationError ≠ PyError.badHostKeyError
    ∧ ∀ c : Connector, connectorInit env args ≠ .ok c := by
  have hmain : connectorInit env args = .error .authenticationError := by
    simp [connectorInit, resolveCredentialFiles, hnokey, retrieveSshKey,
          createSshClient, huser, hpass, hreject, Except.bind]
  exact ⟨hmain, by simp, fun c hc => by simp [hmain] at hc⟩

/-- Witness for C6: the spec's scenario — password credentials
`(user="bob", pass="x")` against a host that rejects authentication. -/
theorem auth_rejection_no_handles_witness :
    connectorInit envAuthReject argsPassword = .error .authenticationError
    ∧ PyError.authenticationError ≠ PyError.badHostKeyError
    ∧ ∀ c : Connector, connectorInit envAuthReject argsPassword ≠ .ok c :=
  auth_rejection_no_handles envAuthReject argsPassword rfl rfl
    (by decide) (by decide)

/-- C3 (code bug): when `get_transport()` returns `None` while deriving the
accelerated-copy handle during `__init__`, the code does not leave the
handle unset and continue — `_create_scp_client` falls through to
`return self.scp_client` with the `scp_client` attribute still unassigned,
raising `AttributeError`, so the whole construction fails instead of
opening in degraded mode. -/
theorem scp_transport_absent_crashes_init :
    connectorInit envNoTransport argsPassword = .error .attributeError
    ∧ createScpClient none none = .error .attributeError := by decide

/-- C7 amended: `disconnect` is idempotent — running it on the state it
produced changes nothing and reports the same outcome — and an absent or
`None` handle is skipped by its guard without preventing the other closes
(shown for an absent accelerated-copy handle and for an absent
attribute-transfer handle, with the remaining closes succeeding). What does
NOT hold is failure-independence; see the counterexample theorem. -/
theorem disconnect_idempotent_and_absence_guarded (s : SessionHandles) :
    disconnect (disconnect s).1 = disconnect s
    ∧ (∀ b1 b2 : Bool,
        (disconnect ⟨some ⟨b1, false⟩, none, some (some ⟨b2, false⟩)⟩).1
          = ⟨some ⟨true, false⟩, none, some (some ⟨true, false⟩)⟩)
    ∧ (∀ b1 b2 : Bool,
        (disconnect ⟨some ⟨b1, false⟩, some (some ⟨b2, false⟩), none⟩).1
          = ⟨some ⟨true, false⟩, some (some ⟨true, false⟩), none⟩) := by
  refine ⟨?_, by decide, by decide⟩
  revert s
  set_option maxRecDepth 16384 in decide

/-- C7 counterexample: the three closes are not guarded against failure.
In a session whose accelerated-copy handle raises on `close()`, the raised
exception propagates out of `disconnect` and the attribute-transfer handle
is left open — refuting the claim that a failure of one handle does not
prevent closing the other handles. -/
theorem disconnect_close_failure_skips_rest :
    disconnect ⟨some ⟨false, false⟩, some (some ⟨false, true⟩),
                some (some ⟨false, false⟩)⟩
      = (⟨some ⟨true, false⟩, some (some ⟨false, true⟩),
          some (some ⟨false, false⟩)⟩, some PyError.closeError)
    ∧ (disconnect ⟨some ⟨false, false⟩, some (some ⟨false, true⟩),
                   some (some ⟨false, false⟩)⟩).1.sftp_client
        = some (some ⟨false, false⟩) := by decide

/-- C8: `_download_file` routes the accelerated-copy tag to
`SCPClient.get` with the recursive flag forwarded; routes the
attribute-transfer tag to `SFTPClient.get` with no recursive argument (its
result does not depend on the flag at all); and raises the
`UnsupportedTransport` error for the command-execution tag. -/
theorem download_file_routing (env : RemoteEnv) (conn : Connector)
    (source destination : String) (recursive : Bool) :
    (env.scpGetRes source destination recursive = .ok () →
        download_file env conn .SCPClient source destination recursive
          = .ok (.scpGet source destination recursive))
    ∧ (env.sftpGetRes source destination = .ok () →
        download_file env conn .SFTPClient source destination recursive
          = .ok (.sftpGet source destination))
    ∧ (∀ r2 : Bool,
        download_file env conn .SFTPClient source destination recursive
          = download_file env conn .SFTPClient source destination r2)
    ∧ download_file env conn .SSHClient source destination recursive
        = .error .unsupportedTransport := by
  refine ⟨fun h => ?_, fun h => ?_, fun r2 => ?_, ?_⟩
  · simp [download_file, get_client, h]
  · simp [download_file, get_client, h]
  · simp [download_file, get_client]
  · simp [download_file, get_client]

/-- Witness for C8 at concrete inputs, all three tags exercised. -/
theorem download_file_routing_witness :
    download_file remoteAllOk testConn .SCPClient "/src" "/dst" true
      = .ok (.scpGet "/src" "/dst" true)
    ∧ download_file remoteAllOk testConn .SFTPClient "/src" "/dst" true
      = .ok (.sftpGet "/src" "/dst")
    ∧ download_file remoteAllOk testConn .SSHClient "/src" "/dst" true
      = .error .unsupportedTransport :=
  ⟨(download_file_routing remoteAllOk testConn "/src" "/dst" true).1 rfl,
   (download_file_routing remoteAllOk testConn "/src" "/dst" true).2.1 rfl,
   (download_file_routing remoteAllOk testConn "/src" "/dst" true).2.2.2⟩

/-- C9: for every remote behavior and every ordered command list, the trace
of `_execute_commands` is, command by command in the supplied order:
issue the command, wait for its exit status, then print its output lines
each tagged with that command. Projecting the issued commands out of the
trace returns exactly the input list, for all exit statuses the oracle
returns — so a non-zero exit status never aborts the remaining commands. -/
theorem execute_commands_serial_no_abort (remoteExec : String → ExecResult)
    (commands : List String) :
    execute_commands remoteExec commands
      = commands.flatMap (fun c =>
          ExecEvent.execCmd c
            :: ExecEvent.waitExit c (remoteExec c).exitStatus
            :: ((remoteExec c).stdoutLines.map fun l => ExecEvent.printLine c l))
    ∧ (execute_commands remoteExec commands).filterMap
        (fun e => match e with
          | .execCmd c => some c
          | _ => none)
      = commands := by
  constructor
  · induction commands with
    | nil => simp [execute_commands]
    | cons c rest ih => simp [execute_commands, ih]
  · induction commands with
    | nil => simp [execute_commands]
    | cons c rest ih =>
        simp [execute_commands, List.filterMap_append, List.filterMap_map,
              Function.comp, ih]

/-- C10: the scp progress callback computes the percentage as
`100 * (sent / size)` (exact rational in the embedding), terminates the
written line with a carriage return while `sent < size` and with a newline
once `sent` reaches `size` — provided `size` is positive; at `size = 0` the
division raises `ZeroDivisionError` (reachable for a zero-byte file). -/
theorem progress_callback_percentage (file : String) (size sent : Nat)
    (peerHost : String) (peerPort : Nat) (hsize : 0 < size) :
    scp_client_progress_text_callback file size sent peerHost peerPort
      = .ok ⟨peerHost ++ ":" ++ toString peerPort ++ " | " ++ file,
             100 * ((sent : ℚ) / (size : ℚ)),
             if sent < size then .cr else .lf⟩
    ∧ scp_client_progress_text_callback file 0 sent peerHost peerPort
      = .error .zeroDivisionError := by
  constructor
  · have hne : size ≠ 0 := Nat.pos_iff_ne_zero.mp hsize
    simp only [scp_client_progress_text_callback, hne, if_false]
    split <;> simp
  · simp [scp_client_progress_text_callback]

/-- Witness for C10: a 4-byte file with 1 byte sent reports 25% with a
carriage return; a zero-byte file raises `ZeroDivisionError`. -/
theorem progress_callback_percentage_witness :
    scp_client_progress_text_callback "a.txt" 4 1 "10.0.0.5" 22
      = .ok ⟨"10.0.0.5:22 | a.txt", 25, .cr⟩
    ∧ scp_client_progress_text_callback "a.txt" 0 1 "10.0.0.5" 22
      = .error .zeroDivisionError := by
  have h := progress_callback_percentage "a.txt" 4 1 "10.0.0.5" 22 (by decide)
  refine ⟨?_, h.2⟩
  rw [h.1]
  norm_num
  decide

/-- C1 (code bug): uploading `[dirA]` with `recursive=True` over the
accelerated-copy tag uploads only the depth-one file `dirA/f1.txt`;
`dirA/sub/f2.txt` is never uploaded, because the recursive call
`self._upload_files(client, [item], destination, **kwargs)` omits the
`recursive` argument, so it runs with the default `recursive=False` and
never descends into `dirA/sub` — contradicting the claimed depth-first
walk over every descendant file. -/
theorem recursive_upload_misses_nested_file :
    upload_files remoteAllOk testConn .SCPClient [dirA] "/remote/dst" true
      = ([UploadOp.scpPut "dirA/f1.txt" "/remote/dst"], none)
    ∧ UploadOp.scpPut "dirA/sub/f2.txt" "/remote/dst"
        ∉ (upload_files remoteAllOk testConn .SCPClient [dirA]
            "/remote/dst" true).1 := by
  have h : upload_files remoteAllOk testConn .SCPClient [dirA]
      "/remote/dst" true
      = ([UploadOp.scpPut "dirA/f1.txt" "/remote/dst"], none) := by
    simp [upload_files, uploadLoopBody, uploadIterdir, dirA, upload_file,
          get_client, remoteAllOk, testConn]
  refine ⟨h, ?_⟩
  rw [h]
  decide

/-- C2 counterexample: in the spec's scenario
`downloadMany(tag=attribute-transfer, sources=["/a","/missing","/b"])`
where `/missing` raises path-not-found, the raised exception propagates out
of the list comprehension: only `/a` and `/missing` are attempted and `/b`
is never attempted — refuting the claim that each item is attempted
independently. -/
theorem download_batch_short_circuits :
    download_files remoteMissingPath testConn .SFTPClient
        ["/a", "/missing", "/b"] "." false
      = [("/a", .ok (.sftpGet "/a" ".")),
         ("/missing", .error .pathNotFound)]
    ∧ "/b" ∉ (download_files remoteMissingPath testConn .SFTPClient
        ["/a", "/missing", "/b"] "." false).map Prod.fst := by decide

/-- C2 amended: `_download_files` applies `_download_file` to the sources
in the given order, but failures short-circuit the batch: when every item
succeeds all sources are attempted in order, and when an item raises, the
items before it are attempted in order, the raising item is attempted, and
the remaining items are not attempted at all. -/
theorem download_batch_until_first_failure (env : RemoteEnv)
    (conn : Connector) (client : Client) (destination : String)
    (recursive : Bool) :
    (∀ sources : List String,
        (∀ s ∈ sources,
          exceptOk (download_file env conn client s destination recursive)
            = true) →
        download_files env conn client sources destination recursive
          = sources.map fun s =>
              (s, download_file env conn client s destination recursive))
    ∧ ∀ (pre : List String) (bad : String) (post : List String),
        (∀ s ∈ pre,
          exceptOk (download_file env conn client s destination recursive)
            = true) →
        exceptOk (download_file env conn client bad destination recursive)
          = false →
        download_files env conn client (pre ++ bad :: post) destination
            recursive
          = (pre.map fun s =>
              (s, download_file env conn client s destination recursive))
            ++ [(bad, download_file env conn client bad destination
                  recursive)] := by
  constructor
  · intro sources
    induction sources with
    | nil => intro _; rfl
    | cons s rest ih =>
        intro h
        have hs := h s (by simp)
        cases hv : download_file env conn client s destination recursive with
        | ok op =>
            simp [download_files, hv]
            exact ih fun x hx => h x (by simp [hx])
        | error e => rw [hv] at hs; simp [exceptOk] at hs
  · intro pre bad post hpre hbad
    induction pre with
    | nil =>
        cases hv : download_file env conn client bad destination recursive with
        | ok op => rw [hv] at hbad; simp [exceptOk] at hbad
        | error e => simp [download_files, hv]
    | cons s rest ih =>
        have hs := hpre s (by simp)
        have hrest := ih fun x hx => hpre x (by simp [hx])
        cases hv : download_file env conn client s destination recursive with
        | ok op =>
            have hstep : download_files env conn client
                ((s :: rest) ++ bad :: post) destination recursive
                = (s, Except.ok op)
                  :: download_files env conn client (rest ++ bad :: post)
                      destination recursive := by
              simp [download_files, hv]
            rw [hstep, hrest]
            simp [hv]
        | error e => rw [hv] at hs; simp [exceptOk] at hs

/-- Witness for the amended C2: with `/missing` raising path-not-found,
the batch `["/a", "/missing"]` attempts `/a`, then `/missing`, and stops. -/
theorem download_batch_until_first_failure_witness :
    download_files remoteMissingPath testConn .SFTPClient
        (["/a"] ++ "/missing" :: []) "." false
      = (["/a"].map fun s =>
          (s, download_file remoteMissingPath testConn .SFTPClient s "."
                false))
        ++ [("/missing", download_file remoteMissingPath testConn
              .SFTPClient "/missing" "." false)] :=
  (download_batch_until_first_failure remoteMissingPath testConn
    .SFTPClient "." false).2 ["/a"] "/missing" [] (by decide) (by decide)

end JtSsh
